import Mathlib

/-!
Shallow embedding of the python-simple-etl core pipeline:
threat classification (services/ThreatAssessmentService.py),
report model (model/report.py, model/threat_level.py, model/exceptions.py),
SQLite persistence (db/sqlite_service.py) and verification
(verify_database.py), together with theorems about the embedded code.
-/

namespace Etl

/-- Embedding of `model/threat_level.py`: the closed `ThreatLevel` enum,
members in Python definition order LOW, MEDIUM, HIGH, CRITICAL. -/
inductive ThreatLevel where
  | LOW
  | MEDIUM
  | HIGH
  | CRITICAL
deriving DecidableEq, Repr

/-- `ThreatLevel` is a `str` enum: `.value` is the member's string. -/
def ThreatLevel.value : ThreatLevel → String
  | .LOW => "LOW"
  | .MEDIUM => "MEDIUM"
  | .HIGH => "HIGH"
  | .CRITICAL => "CRITICAL"

/-- Iteration order of the Python enum (`for level in ThreatLevel`). -/
def ThreatLevel.all : List ThreatLevel :=
  [.LOW, .MEDIUM, .HIGH, .CRITICAL]

/-- Embedding of `model/access_details.py`: pydantic model with two
required string fields. -/
structure AccessDetails where
  ip_address : String
  accessed_resource : String
deriving DecidableEq, Repr

/-- Embedding of `model/exceptions.py`: `MLServiceError(Exception)` with a
message defaulting to "An error occurred in the ML Service". -/
structure MLServiceError where
  message : String
deriving DecidableEq, Repr

/-- The default-constructed `MLServiceError()` raised by the classifier. -/
def MLServiceError.default : MLServiceError :=
  ⟨"An error occurred in the ML Service"⟩

/-- Embedding of `ThreatAssessmentService.__init__`: the configured
rule sets (field names as in the source, including the `low_rist` typo). -/
structure ThreatAssessmentService where
  critical_ips_prefixes : List String
  high_risk_resources : List String
  low_rist_resources : List String
deriving DecidableEq, Repr

/-- The configuration installed by `ThreatAssessmentService.__init__`. -/
def ThreatAssessmentService.default : ThreatAssessmentService :=
  { critical_ips_prefixes := ["141.", "68."]
    high_risk_resources := ["/admin", "/reports", "/settings"]
    low_rist_resources := ["/dashboard", "/profile"] }

/-- Python `str.startswith` on the underlying character sequences. -/
def startswith (s p : String) : Bool := p.data.isPrefixOf s.data

/-- Python `str.endswith` on the underlying character sequences. -/
def endswith (s p : String) : Bool := p.data.isSuffixOf s.data

/-- Embedding of `ThreatAssessmentService.assess_threat_level`.
The value of the global random draw `random.randint(1, 100)` is passed in
as `draw` (randomness is external to the embedding); the method raises
`MLServiceError()` when `draw <= 5`, and otherwise evaluates the rules in
source order: critical-IP prefix, then high-risk resource suffix, then
low-risk resource suffix, then the MEDIUM default. -/
def ThreatAssessmentService.assess_threat_level
    (s : ThreatAssessmentService) (draw : Nat) (ad : AccessDetails) :
    Except MLServiceError ThreatLevel :=
  if draw ≤ 5 then
    .error MLServiceError.default
  else if s.critical_ips_prefixes.any (fun p => startswith ad.ip_address p) then
    .ok .CRITICAL
  else if s.high_risk_resources.any (fun res => endswith ad.accessed_resource res) then
    .ok .HIGH
  else if s.low_rist_resources.any (fun res => endswith ad.accessed_resource res) then
    .ok .LOW
  else
    .ok .MEDIUM

/-- Embedding of `model/report.py`: the raw field record of a pydantic
`Report`. Construction goes through `Report.model_validate` below, which
performs exactly the validation pydantic performs. -/
structure Report where
  threat_level : ThreatLevel
  incidents_count : Int
  first_incident : Option Int
  last_incident : Option Int
deriving DecidableEq, Repr

/-- Pydantic validation of a `Report`: the only constraint declared on the
model is `incidents_count: int = Field(..., ge=0)`; the two timestamps are
optional and unconstrained. Returns `none` when validation fails. -/
def Report.model_validate (tl : ThreatLevel) (n : Int)
    (f l : Option Int) : Option Report :=
  if 0 ≤ n then some ⟨tl, n, f, l⟩ else none

/-- One row of the `report` table created by
`ReportsRepository._initialize_database`; every column except the
autoincrement primary key is nullable at the SQL level, with NOT NULL
enforced by the constraints checked in `insertValues`. -/
structure Row where
  id : Nat
  threat_level : Option String
  incidents_count : Option Int
  first_incident : Option Int
  last_incident : Option Int
deriving DecidableEq, Repr

/-- The persisted SQLite database: the committed rows of `report` in rowid
(insertion) order, plus the AUTOINCREMENT counter for the next id. -/
structure DB where
  rows : List Row
  nextId : Nat
deriving DecidableEq, Repr

/-- An open `sqlite3` connection: the committed state it would restore on
rollback, the state including the pending transaction, and whether the
connection is still open. -/
structure Conn where
  base : DB
  current : DB
  isOpen : Bool
deriving DecidableEq, Repr

/-- `sqlite3.connect(self.db_path)`: a fresh connection with no pending
transaction. -/
def connect (db : DB) : Conn := ⟨db, db, true⟩

/-- `conn.commit()`: the pending transaction becomes the committed state. -/
def Conn.commit (c : Conn) : Conn := { c with base := c.current }

/-- `conn.rollback()`: the pending transaction is discarded. -/
def Conn.rollback (c : Conn) : Conn := { c with current := c.base }

/-- `conn.close()`: the connection is released; anything uncommitted is
gone, the committed state `base` is what the database file holds. -/
def Conn.close (c : Conn) : Conn := { c with isOpen := false }

/-- Outcome of running one repository operation against a database state:
the database file afterwards, the returned value or the re-raised
exception (SQLite errors carried as their message string), and whether the
connection was closed on the way out. -/
structure ConnResult (α : Type) where
  db : DB
  result : Except String α
  connClosed : Bool
deriving Repr

/-- Embedding of `ReportsRepository.get_connection` (the `@contextmanager`
at `db/sqlite_service.py:25-42`): connect, run the body; on success
`conn.commit()`, on any exception `conn.rollback()` and re-raise the same
exception; `conn.close()` in `finally` on both paths. -/
def get_connection {α : Type} (db : DB)
    (body : Conn → Except String (Conn × α)) : ConnResult α :=
  match body (connect db) with
  | .ok (c, a) =>
      let c2 := c.commit.close
      { db := c2.base, result := .ok a, connClosed := !c2.isOpen }
  | .error e =>
      let c2 := ((connect db).rollback).close
      { db := c2.base, result := .error e, connClosed := !c2.isOpen }

/-- The bound parameters of one `INSERT INTO report (threat_level,
incidents_count, first_incident, last_incident) VALUES (?, ?, ?, ?)`. -/
structure SqlParams where
  threat_level : Option String
  incidents_count : Option Int
  first_incident : Option Int
  last_incident : Option Int
deriving DecidableEq, Repr

/-- The parameter tuple built from a `Report` in `insert_report` and
`insert_reports_batch`: `(report.threat_level.value,
report.incidents_count, report.first_incident, report.last_incident)`. -/
def Report.toParams (r : Report) : SqlParams :=
  ⟨some r.threat_level.value, some r.incidents_count,
    r.first_incident, r.last_incident⟩

/-- Executing the INSERT statement once inside the open transaction:
SQLite checks the NOT NULL constraints of the `report` schema (all four
columns are bound explicitly, so the DEFAULT never applies), assigns the
next AUTOINCREMENT rowid, and stages the row. Returns the rowid. -/
def insertValues (c : Conn) (p : SqlParams) : Except String (Conn × Nat) :=
  if p.threat_level.isNone then
    .error "NOT NULL constraint failed: report.threat_level"
  else if p.incidents_count.isNone then
    .error "NOT NULL constraint failed: report.incidents_count"
  else
    let rowid := c.current.nextId
    let row : Row :=
      ⟨rowid, p.threat_level, p.incidents_count, p.first_incident, p.last_incident⟩
    .ok ({ c with current := ⟨c.current.rows ++ [row], rowid + 1⟩ }, rowid)

/-- `cursor.executemany(sql, data)`: runs the INSERT once per parameter
tuple, stopping at the first failure; on success `cursor.rowcount` is the
number of rows inserted. -/
def executemany (c : Conn) : List SqlParams → Except String (Conn × Nat)
  | [] => .ok (c, 0)
  | p :: ps =>
      match insertValues c p with
      | .error e => .error e
      | .ok (c1, _) =>
          match executemany c1 ps with
          | .error e => .error e
          | .ok (c2, n) => .ok (c2, n + 1)

/-- Embedding of `ReportsRepository.insert_report`
(`db/sqlite_service.py:65-81`): one INSERT inside `get_connection`,
returning `cursor.lastrowid`. -/
def insert_report (db : DB) (report : Report) : ConnResult Nat :=
  get_connection db (fun conn => insertValues conn report.toParams)

/-- Embedding of `ReportsRepository.insert_reports_batch`
(`db/sqlite_service.py:83-104`): `executemany` over the reports' parameter
tuples inside `get_connection`, returning `cursor.rowcount`. -/
def insert_reports_batch (db : DB) (reports : List Report) : ConnResult Nat :=
  get_connection db (fun conn => executemany conn (reports.map Report.toParams))

/-- The same batch INSERT at the SQL level, over arbitrary bound parameter
tuples: this is `insert_reports_batch` before the `Report`-to-parameters
mapping, and is where a constraint violation inside a batch can arise. -/
def insert_rows_batch (db : DB) (ps : List SqlParams) : ConnResult Nat :=
  get_connection db (fun conn => executemany conn ps)

/-- The `CASE threat_level ... END` key of the `ORDER BY` in
`get_all_reports`; there is no ELSE arm, so any unmatched (or NULL) value
yields NULL. -/
def threat_level_rank : Option String → Option Nat
  | some "CRITICAL" => some 1
  | some "HIGH" => some 2
  | some "MEDIUM" => some 3
  | some "LOW" => some 4
  | _ => none

/-- SQLite ascending order on the CASE key: NULL sorts before every
integer. -/
def sqliteKeyLe : Option Nat → Option Nat → Bool
  | none, _ => true
  | some _, none => false
  | some a, some b => a ≤ b

/-- Row comparison used by the `ORDER BY` of `get_all_reports`. -/
def rowKeyLe (a b : Row) : Prop :=
  sqliteKeyLe (threat_level_rank a.threat_level) (threat_level_rank b.threat_level) = true

instance : DecidableRel rowKeyLe := fun _ _ => Bool.decEq _ _

/-- Embedding of `verify_database.get_all_reports`
(`verify_database.py:17-46`): a full scan of `report` in rowid (insertion)
order, sorted by the CASE key. SQLite's sorter is stable over the scan
order, modelled by a stable insertion sort. -/
def get_all_reports (db : DB) : List Row :=
  List.insertionSort rowKeyLe db.rows

/-- `{level.value for level in ThreatLevel}` as read back from SQL (every
expected value is a non-NULL string). -/
def expected_levels : Finset (Option String) :=
  (ThreatLevel.all.map (fun level => some level.value)).toFinset

/-- Embedding of `verify_database.verify_threat_levels`
(`verify_database.py:49-65`): the expected set is every enum value, the
present set is every `threat_level` column value, missing is their set
difference, and the verification is complete when nothing is missing. -/
def verify_threat_levels (reports : List Row) : Bool × Finset (Option String) :=
  let present_levels := (reports.map (fun report => report.threat_level)).toFinset
  let missing_levels := expected_levels \ present_levels
  (missing_levels.card == 0, missing_levels)

/-- The rows a successful batch insert stages, starting at a given
AUTOINCREMENT counter: one row per report, consecutive ids, columns bound
from `Report.toParams`. -/
def insertedRows (startId : Nat) : List Report → List Row
  | [] => []
  | r :: rs =>
      ⟨startId, some r.threat_level.value, some r.incidents_count,
        r.first_incident, r.last_incident⟩ :: insertedRows (startId + 1) rs

/-- Reading one persisted record back by its identity (primary key). -/
def findById (rows : List Row) (rowid : Nat) : Option Row :=
  rows.find? (fun row => row.id == rowid)

/-- The `threat_level` column values a repository-persisted row can hold:
exactly the four enum literals. -/
def enum_level_values : List (Option String) :=
  ThreatLevel.all.map (fun level => some level.value)

instance {ε α : Type} [DecidableEq ε] [DecidableEq α] : DecidableEq (Except ε α) :=
  fun x y =>
    match x, y with
    | .ok a, .ok b =>
        if h : a = b then .isTrue (congrArg Except.ok h)
        else .isFalse (fun hh => h (Except.ok.inj hh))
    | .ok _, .error _ => .isFalse (fun hh => Except.noConfusion hh)
    | .error _, .ok _ => .isFalse (fun hh => Except.noConfusion hh)
    | .error e, .error f =>
        if h : e = f then .isTrue (congrArg Except.error h)
        else .isFalse (fun hh => h (Except.error.inj hh))

/-! ### Order facts about the SQL sort key -/

theorem sqliteKeyLe_refl (x : Option Nat) : sqliteKeyLe x x = true := by
  cases x <;> simp [sqliteKeyLe]

theorem sqliteKeyLe_total (x y : Option Nat) :
    sqliteKeyLe x y = true ∨ sqliteKeyLe y x = true := by
  cases x <;> cases y <;> (try simp_all [sqliteKeyLe]) <;> omega

theorem sqliteKeyLe_trans {x y z : Option Nat} (h1 : sqliteKeyLe x y = true)
    (h2 : sqliteKeyLe y z = true) : sqliteKeyLe x z = true := by
  cases x <;> cases y <;> cases z <;> (try simp_all [sqliteKeyLe]) <;> omega

instance : IsTotal Row rowKeyLe :=
  ⟨fun _ _ => sqliteKeyLe_total _ _⟩

instance : IsTrans Row rowKeyLe :=
  ⟨fun _ _ _ h1 h2 => sqliteKeyLe_trans h1 h2⟩

/-- C1: for every access event on which the injected failure does not fire
(the draw is above 5), `assess_threat_level` returns the first matching
rule in order: CRITICAL when the IP starts with a configured critical
prefix; otherwise HIGH when the resource ends with a configured high-risk
suffix; otherwise LOW when the resource ends with a configured low-risk
suffix; otherwise MEDIUM. -/
theorem c1_rule_order (s : ThreatAssessmentService) (draw : Nat)
    (ad : AccessDetails) (hdraw : 5 < draw) :
    (s.critical_ips_prefixes.any (fun p => startswith ad.ip_address p) = true →
      s.assess_threat_level draw ad = .ok .CRITICAL) ∧
    (s.critical_ips_prefixes.any (fun p => startswith ad.ip_address p) = false →
      s.high_risk_resources.any (fun res => endswith ad.accessed_resource res) = true →
      s.assess_threat_level draw ad = .ok .HIGH) ∧
    (s.critical_ips_prefixes.any (fun p => startswith ad.ip_address p) = false →
      s.high_risk_resources.any (fun res => endswith ad.accessed_resource res) = false →
      s.low_rist_resources.any (fun res => endswith ad.accessed_resource res) = true →
      s.assess_threat_level draw ad = .ok .LOW) ∧
    (s.critical_ips_prefixes.any (fun p => startswith ad.ip_address p) = false →
      s.high_risk_resources.any (fun res => endswith ad.accessed_resource res) = false →
      s.low_rist_resources.any (fun res => endswith ad.accessed_resource res) = false →
      s.assess_threat_level draw ad = .ok .MEDIUM) := by
  have hn : ¬ draw ≤ 5 := by omega
  refine ⟨?_, ?_, ?_, ?_⟩
  · intro hc
    simp [ThreatAssessmentService.assess_threat_level, hn, hc]
  · intro hc hh
    simp [ThreatAssessmentService.assess_threat_level, hn, hc, hh]
  · intro hc hh hl
    simp [ThreatAssessmentService.assess_threat_level, hn, hc, hh, hl]
  · intro hc hh hl
    simp [ThreatAssessmentService.assess_threat_level, hn, hc, hh, hl]

/-- Witness for C1 at the configuration the service installs and concrete
events, one per rule. -/
theorem c1_rule_order_witness :
    (ThreatAssessmentService.default.assess_threat_level 42 ⟨"141.9.8.7", "/x"⟩ = .ok .CRITICAL) ∧
    (ThreatAssessmentService.default.assess_threat_level 42 ⟨"10.0.0.1", "/app/admin"⟩ = .ok .HIGH) ∧
    (ThreatAssessmentService.default.assess_threat_level 42 ⟨"10.0.0.1", "/profile"⟩ = .ok .LOW) ∧
    (ThreatAssessmentService.default.assess_threat_level 42 ⟨"10.0.0.1", "/other"⟩ = .ok .MEDIUM) := by
  refine ⟨?_, ?_, ?_, ?_⟩
  · exact (c1_rule_order ThreatAssessmentService.default 42 ⟨"141.9.8.7", "/x"⟩
      (by omega)).1 (by decide)
  · exact (c1_rule_order ThreatAssessmentService.default 42 ⟨"10.0.0.1", "/app/admin"⟩
      (by omega)).2.1 (by decide) (by decide)
  · exact (c1_rule_order ThreatAssessmentService.default 42 ⟨"10.0.0.1", "/profile"⟩
      (by omega)).2.2.1 (by decide) (by decide) (by decide)
  · exact (c1_rule_order ThreatAssessmentService.default 42 ⟨"10.0.0.1", "/other"⟩
      (by omega)).2.2.2 (by decide) (by decide) (by decide)

/-- C4 counterexample: the claim says the failure rate and random source
are configurable, but the only configuration the service carries is the
three rule sets; replacing every configured value leaves the failure
threshold unchanged (draw 5 fails, draw 6 succeeds, under the default and
under a fully different configuration), because `random.randint(1, 100) <= 5`
is hard-coded. -/
theorem c4_failure_counterexample :
    (ThreatAssessmentService.default.assess_threat_level 5 ⟨"141.1.1.1", "/admin"⟩
      = .error MLServiceError.default) ∧
    ((⟨["9."], ["/a"], ["/b"]⟩ : ThreatAssessmentService).assess_threat_level 5
      ⟨"141.1.1.1", "/admin"⟩ = .error MLServiceError.default) ∧
    (ThreatAssessmentService.default.assess_threat_level 6 ⟨"141.1.1.1", "/admin"⟩
      = .ok .CRITICAL) ∧
    ((⟨["9."], ["/a"], ["/b"]⟩ : ThreatAssessmentService).assess_threat_level 6
      ⟨"141.1.1.1", "/admin"⟩ = .ok .MEDIUM) := by
  decide

/-- C4 amended: `assess_threat_level` raises `MLServiceError` (a dedicated
error type) if and only if the injected draw fires, i.e. the draw from
1..100 is at most 5 — 5 of the 100 possible draws, a fixed 5% rate; the
check precedes all rule evaluation, so even an event with a critical-prefix
IP fails when the draw fires. The rate and the random source are
hard-coded, not configurable. -/
theorem c4_injected_failure (s : ThreatAssessmentService) (draw : Nat)
    (ad : AccessDetails) (h1 : 1 ≤ draw) (h100 : draw ≤ 100) :
    (s.assess_threat_level draw ad = .error MLServiceError.default ↔ draw ≤ 5) ∧
    (s.critical_ips_prefixes.any (fun p => startswith ad.ip_address p) = true →
      draw ≤ 5 → s.assess_threat_level draw ad = .error MLServiceError.default) ∧
    (((List.range 100).map (fun k => k + 1)).filter (fun r => r ≤ 5)).length = 5 := by
  refine ⟨?_, ?_, by decide⟩
  · by_cases h : draw ≤ 5
    · simp [ThreatAssessmentService.assess_threat_level, h]
    · simp only [ThreatAssessmentService.assess_threat_level, if_neg h]
      constructor
      · intro hh
        exfalso
        revert hh
        split <;> (try split) <;> (try split) <;> simp
      · intro hh
        exact absurd hh h
  · intro _ h5
    simp [ThreatAssessmentService.assess_threat_level, h5]

/-- Witness for C4 at a concrete firing draw and a critical-prefix event. -/
theorem c4_injected_failure_witness :
    (ThreatAssessmentService.default.assess_threat_level 3 ⟨"68.1.2.3", "/admin"⟩
        = .error MLServiceError.default ↔ (3 : Nat) ≤ 5) ∧
    (ThreatAssessmentService.default.critical_ips_prefixes.any
        (fun p => startswith "68.1.2.3" p) = true →
      (3 : Nat) ≤ 5 →
      ThreatAssessmentService.default.assess_threat_level 3 ⟨"68.1.2.3", "/admin"⟩
        = .error MLServiceError.default) ∧
    (((List.range 100).map (fun k => k + 1)).filter (fun r => r ≤ 5)).length = 5 :=
  c4_injected_failure ThreatAssessmentService.default 3 ⟨"68.1.2.3", "/admin"⟩
    (by decide) (by decide)

/-! ### Transaction-scope lemmas -/

theorem get_connection_ok {α : Type} (db : DB) (body : Conn → Except String (Conn × α))
    (c : Conn) (a : α) (h : body (connect db) = .ok (c, a)) :
    get_connection db body = { db := c.current, result := .ok a, connClosed := true } := by
  unfold get_connection
  rw [h]
  rfl

theorem get_connection_error {α : Type} (db : DB) (body : Conn → Except String (Conn × α))
    (e : String) (h : body (connect db) = .error e) :
    get_connection db body = { db := db, result := .error e, connClosed := true } := by
  unfold get_connection
  rw [h]
  rfl

theorem get_connection_closed {α : Type} (db : DB)
    (body : Conn → Except String (Conn × α)) :
    (get_connection db body).connClosed = true := by
  unfold get_connection
  rcases body (connect db) with e | ⟨c, a⟩ <;> rfl

theorem insertedRows_length (startId : Nat) (reports : List Report) :
    (insertedRows startId reports).length = reports.length := by
  induction reports generalizing startId with
  | nil => rfl
  | cons r rs ih => simp [insertedRows, ih]

theorem insertValues_toParams (c : Conn) (r : Report) :
    insertValues c r.toParams =
      .ok ({ c with current :=
               ⟨c.current.rows ++
                  [⟨c.current.nextId, some r.threat_level.value, some r.incidents_count,
                    r.first_incident, r.last_incident⟩],
                 c.current.nextId + 1⟩ }, c.current.nextId) := by
  simp [insertValues, Report.toParams]

theorem executemany_reports (reports : List Report) (c : Conn) :
    executemany c (reports.map Report.toParams) =
      .ok ({ c with current :=
               ⟨c.current.rows ++ insertedRows c.current.nextId reports,
                 c.current.nextId + reports.length⟩ }, reports.length) := by
  induction reports generalizing c with
  | nil => simp [executemany, insertedRows]
  | cons r rs ih =>
      simp only [List.map_cons, executemany, insertValues_toParams, ih]
      simp only [insertedRows, List.length_cons]
      simp [List.append_assoc, Nat.add_assoc, Nat.add_comm 1]

theorem executemany_error (ps : List SqlParams) (c : Conn)
    (hbad : ∃ p ∈ ps, p.threat_level = none ∨ p.incidents_count = none) :
    ∃ e, executemany c ps = .error e := by
  induction ps generalizing c with
  | nil => simp at hbad
  | cons p ps ih =>
      cases htl : p.threat_level with
      | none =>
          refine ⟨"NOT NULL constraint failed: report.threat_level", ?_⟩
          simp [executemany, insertValues, htl]
      | some v =>
          cases hic : p.incidents_count with
          | none =>
              refine ⟨"NOT NULL constraint failed: report.incidents_count", ?_⟩
              simp [executemany, insertValues, htl, hic]
          | some n =>
              rcases hbad with ⟨q, hq, hbadq⟩
              rcases List.mem_cons.mp hq with rfl | hq2
              · rcases hbadq with hb | hb
                · rw [htl] at hb; exact absurd hb (by simp)
                · rw [hic] at hb; exact absurd hb (by simp)
              · obtain ⟨e, he⟩ := ih
                  ({ c with current :=
                      ⟨c.current.rows ++
                          [⟨c.current.nextId, some v, some n,
                            p.first_incident, p.last_incident⟩],
                        c.current.nextId + 1⟩ }) ⟨q, hq2, hbadq⟩
                refine ⟨e, ?_⟩
                simp [executemany, insertValues, htl, hic, he]

/-- C5: both store operations run inside `get_connection`: on success the
staged transaction is committed and becomes the persisted state, on any
failure inside the scope the persisted state is left unchanged (rollback)
and the very same exception is re-raised, and the connection is closed on
every exit path. -/
theorem c5_connection_scope {α : Type} (db : DB)
    (body : Conn → Except String (Conn × α))
    (report : Report) (qs : List SqlParams) :
    (∀ c a, body (connect db) = .ok (c, a) →
      get_connection db body = { db := c.current, result := .ok a, connClosed := true }) ∧
    (∀ e, body (connect db) = .error e →
      get_connection db body = { db := db, result := .error e, connClosed := true }) ∧
    (insert_report db report).connClosed = true ∧
    (insert_reports_batch db [report]).connClosed = true ∧
    (insert_rows_batch db qs).connClosed = true := by
  refine ⟨?_, ?_, ?_, ?_, ?_⟩
  · intro c a h
    exact get_connection_ok db body c a h
  · intro e h
    exact get_connection_error db body e h
  · exact get_connection_closed db _
  · exact get_connection_closed db _
  · exact get_connection_closed db _

/-- Witness for C5: a body that succeeds commits its staged state, a body
that raises leaves the database unchanged and re-raises the same error. -/
theorem c5_connection_scope_witness :
    get_connection (⟨[], 1⟩ : DB) (fun c => .ok (c, (7 : Nat))) = ⟨⟨[], 1⟩, .ok 7, true⟩ ∧
    get_connection (⟨[], 1⟩ : DB) (fun _ => (.error "boom" : Except String (Conn × Nat)))
      = ⟨⟨[], 1⟩, .error "boom", true⟩ :=
  ⟨(c5_connection_scope ⟨[], 1⟩ (fun c => .ok (c, (7 : Nat))) ⟨.LOW, 0, none, none⟩ []).1
      (connect ⟨[], 1⟩) 7 rfl,
   (c5_connection_scope ⟨[], 1⟩ (fun _ => (.error "boom" : Except String (Conn × Nat)))
      ⟨.LOW, 0, none, none⟩ []).2.1 "boom" rfl⟩

/-- C2: a successful `insert_reports_batch` over N valid reports commits
exactly N new rows (the reports' data, at consecutive fresh ids) and
returns N; a batch whose SQL-level data violates a constraint commits
nothing — the database is exactly as before — and the operation fails. -/
theorem c2_batch_all_or_nothing (db : DB) (reports : List Report)
    (ps : List SqlParams)
    (hbad : ∃ p ∈ ps, p.threat_level = none ∨ p.incidents_count = none) :
    ((insert_reports_batch db reports).result = .ok reports.length ∧
     (insert_reports_batch db reports).db.rows =
       db.rows ++ insertedRows db.nextId reports ∧
     (insertedRows db.nextId reports).length = reports.length) ∧
    ((insert_rows_batch db ps).db = db ∧
     ∃ e, (insert_rows_batch db ps).result = .error e) := by
  constructor
  · refine ⟨?_, ?_, insertedRows_length db.nextId reports⟩ <;>
    · unfold insert_reports_batch
      rw [get_connection_ok db _ _ reports.length (executemany_reports reports (connect db))]
      try rfl
  · obtain ⟨e, he⟩ := executemany_error ps (connect db) hbad
    have h := get_connection_error db (fun conn => executemany conn ps) e he
    constructor
    · unfold insert_rows_batch
      rw [h]
    · refine ⟨e, ?_⟩
      unfold insert_rows_batch
      rw [h]

/-- Witness for C2: a two-report batch commits two rows and returns 2; a
batch with a NULL `threat_level` leaves the empty database empty and
fails. -/
theorem c2_batch_all_or_nothing_witness :
    ((insert_reports_batch ⟨[], 1⟩
        [⟨.HIGH, 2, some 10, some 30⟩, ⟨.LOW, 1, some 20, some 20⟩]).result = .ok 2 ∧
     (insert_reports_batch ⟨[], 1⟩
        [⟨.HIGH, 2, some 10, some 30⟩, ⟨.LOW, 1, some 20, some 20⟩]).db.rows =
       [] ++ insertedRows 1 [⟨.HIGH, 2, some 10, some 30⟩, ⟨.LOW, 1, some 20, some 20⟩] ∧
     (insertedRows 1 [⟨.HIGH, 2, some 10, some 30⟩, ⟨.LOW, 1, some 20, some 20⟩]).length = 2) ∧
    ((insert_rows_batch ⟨[], 1⟩ [⟨none, some 1, none, none⟩]).db = ⟨[], 1⟩ ∧
     ∃ e, (insert_rows_batch ⟨[], 1⟩ [⟨none, some 1, none, none⟩]).result = .error e) :=
  c2_batch_all_or_nothing ⟨[], 1⟩
    [⟨.HIGH, 2, some 10, some 30⟩, ⟨.LOW, 1, some 20, some 20⟩]
    [⟨none, some 1, none, none⟩] (by decide)

/-- C6 counterexample: a Report whose `first_incident` (1) exceeds its
`last_incident` (0) passes pydantic validation and is persisted by
`insert_report`, so not every constructible and persistable Report
satisfies `first_incident ≤ last_incident`. -/
theorem c6_counterexample :
    Report.model_validate .LOW 0 (some 1) (some 0) = some ⟨.LOW, 0, some 1, some 0⟩ ∧
    (insert_report ⟨[], 1⟩ ⟨.LOW, 0, some 1, some 0⟩).result = .ok 1 ∧
    (insert_report ⟨[], 1⟩ ⟨.LOW, 0, some 1, some 0⟩).db.rows =
      [⟨1, some "LOW", some 0, some 1, some 0⟩] ∧
    ¬ ((1 : Int) ≤ 0) := by
  decide

/-- C6 amended: pydantic validation fixes the fields and enforces only
`incidents_count ≥ 0`; it does not relate the two timestamps, so a Report
with both timestamps set and `first_incident > last_incident` is
constructible and persistable — the `first_incident ≤ last_incident`
invariant is not enforced by the model or the schema. -/
theorem c6_timestamp_invariant_not_enforced :
    (∀ (tl : ThreatLevel) (n : Int) (f l : Option Int) (r : Report),
      Report.model_validate tl n f l = some r → r = ⟨tl, n, f, l⟩ ∧ 0 ≤ n) ∧
    Report.model_validate .HIGH 3 (some 5) (some 2) = some ⟨.HIGH, 3, some 5, some 2⟩ ∧
    (insert_report ⟨[], 1⟩ ⟨.HIGH, 3, some 5, some 2⟩).result = .ok 1 ∧
    (insert_report ⟨[], 1⟩ ⟨.HIGH, 3, some 5, some 2⟩).db.rows =
      [⟨1, some "HIGH", some 3, some 5, some 2⟩] ∧
    ¬ ((5 : Int) ≤ 2) := by
  refine ⟨?_, by decide, by decide, by decide, by decide⟩
  intro tl n f l r h
  by_cases hn : 0 ≤ n
  · unfold Report.model_validate at h
    rw [if_pos hn] at h
    exact ⟨(Option.some.inj h).symm, hn⟩
  · unfold Report.model_validate at h
    rw [if_neg hn] at h
    cases h

/-- Witness for C6's amended statement at a concrete validated report. -/
theorem c6_timestamp_invariant_not_enforced_witness :
    (⟨.LOW, 7, none, none⟩ : Report) = ⟨.LOW, 7, none, none⟩ ∧ (0 : Int) ≤ 7 :=
  c6_timestamp_invariant_not_enforced.1 .LOW 7 none none ⟨.LOW, 7, none, none⟩ (by decide)

theorem find?_eq_some_of_unique {α : Type} (l : List α) (p : α → Bool) (a : α)
    (hmem : a ∈ l) (hpa : p a = true) (huniq : ∀ b ∈ l, p b = true → b = a) :
    l.find? p = some a := by
  induction l with
  | nil => simp at hmem
  | cons x xs ih =>
      by_cases hx : p x = true
      · have hxa : x = a := huniq x (List.mem_cons_self x xs) hx
        subst hxa
        simp [List.find?_cons_of_pos, hx]
      · rw [List.find?_cons_of_neg _ (by simp [hx])]
        rcases List.mem_cons.mp hmem with rfl | hm
        · exact absurd hpa hx
        · exact ih hm (fun b hb hpb => huniq b (List.mem_cons_of_mem x hb) hpb)

/-- C7: inserting a report and reading the row back by the returned
identity yields exactly the inserted data: the threat level as its enum
string, the incidents count, and both timestamps unchanged. The returned
identity is the fresh AUTOINCREMENT id. -/
theorem c7_round_trip (db : DB) (report : Report)
    (hwf : ∀ row ∈ db.rows, row.id < db.nextId) :
    (insert_report db report).result = .ok db.nextId ∧
    findById (get_all_reports (insert_report db report).db) db.nextId =
      some ⟨db.nextId, some report.threat_level.value, some report.incidents_count,
        report.first_incident, report.last_incident⟩ := by
  have h := get_connection_ok db (fun conn => insertValues conn report.toParams) _ _
    (insertValues_toParams (connect db) report)
  constructor
  · unfold insert_report
    rw [h]
    rfl
  · unfold insert_report
    rw [h]
    show findById
      (get_all_reports
        ⟨db.rows ++ [⟨db.nextId, some report.threat_level.value, some report.incidents_count,
            report.first_incident, report.last_incident⟩], db.nextId + 1⟩)
      db.nextId = _
    unfold findById get_all_reports
    apply find?_eq_some_of_unique
    · rw [(List.perm_insertionSort rowKeyLe _).mem_iff]
      simp
    · simp
    · intro b hb hpb
      rw [(List.perm_insertionSort rowKeyLe _).mem_iff] at hb
      rcases List.mem_append.mp hb with hm | hm
      · have hlt := hwf b hm
        have hid : b.id = db.nextId := by simpa using hpb
        omega
      · simpa using hm

/-- Witness for C7 on a database already holding one row. -/
theorem c7_round_trip_witness :
    (∀ row ∈ ([⟨1, some "LOW", some 0, none, none⟩] : List Row), row.id < 2) ∧
    ((insert_report ⟨[⟨1, some "LOW", some 0, none, none⟩], 2⟩
        ⟨.CRITICAL, 4, some 11, some 12⟩).result = .ok 2 ∧
     findById (get_all_reports (insert_report ⟨[⟨1, some "LOW", some 0, none, none⟩], 2⟩
         ⟨.CRITICAL, 4, some 11, some 12⟩).db) 2 =
       some ⟨2, some "CRITICAL", some 4, some 11, some 12⟩) :=
  ⟨by decide,
   c7_round_trip ⟨[⟨1, some "LOW", some 0, none, none⟩], 2⟩
     ⟨.CRITICAL, 4, some 11, some 12⟩ (by decide)⟩

theorem insertedRows_nonneg (startId : Nat) (reports : List Report)
    (h : ∀ r ∈ reports, 0 ≤ r.incidents_count) :
    ∀ row ∈ insertedRows startId reports,
      ∃ m, row.incidents_count = some m ∧ 0 ≤ m := by
  induction reports generalizing startId with
  | nil => simp [insertedRows]
  | cons r rs ih =>
      intro row hrow
      rcases List.mem_cons.mp hrow with rfl | hm
      · exact ⟨r.incidents_count, rfl, h r (by simp)⟩
      · exact ih (startId + 1) (fun q hq => h q (by simp [hq])) row hm

/-- C9: pydantic accepts a Report exactly when `incidents_count ≥ 0`, and
both store operations preserve the table invariant that every persisted
row holds a non-null, non-negative `incidents_count` (valid reports bind a
non-NULL non-negative value). -/
theorem c9_nonneg_incidents (tl : ThreatLevel) (n : Int) (f l : Option Int)
    (db : DB) (report : Report) (reports : List Report)
    (hdb : ∀ row ∈ db.rows, ∃ m, row.incidents_count = some m ∧ 0 ≤ m)
    (hreport : 0 ≤ report.incidents_count)
    (hreports : ∀ r ∈ reports, 0 ≤ r.incidents_count) :
    ((Report.model_validate tl n f l).isSome ↔ 0 ≤ n) ∧
    (∀ row ∈ (insert_report db report).db.rows,
      ∃ m, row.incidents_count = some m ∧ 0 ≤ m) ∧
    (∀ row ∈ (insert_reports_batch db reports).db.rows,
      ∃ m, row.incidents_count = some m ∧ 0 ≤ m) := by
  refine ⟨?_, ?_, ?_⟩
  · unfold Report.model_validate
    by_cases hn : 0 ≤ n <;> simp [hn]
  · have h := get_connection_ok db (fun conn => insertValues conn report.toParams) _ _
      (insertValues_toParams (connect db) report)
    unfold insert_report
    rw [h]
    intro row hrow
    rcases List.mem_append.mp hrow with hm | hm
    · exact hdb row hm
    · rw [List.mem_singleton] at hm
      subst hm
      exact ⟨report.incidents_count, rfl, hreport⟩
  · have h := get_connection_ok db
      (fun conn => executemany conn (reports.map Report.toParams)) _ _
      (executemany_reports reports (connect db))
    unfold insert_reports_batch
    rw [h]
    intro row hrow
    rcases List.mem_append.mp hrow with hm | hm
    · exact hdb row hm
    · exact insertedRows_nonneg _ reports hreports row hm

/-- Witness for C9: validation of a concrete count, and both operations on
concrete data. -/
theorem c9_nonneg_incidents_witness :
    ((Report.model_validate .LOW 5 none none).isSome ↔ (0 : Int) ≤ 5) ∧
    (∀ row ∈ (insert_report ⟨[], 1⟩ ⟨.MEDIUM, 2, none, none⟩).db.rows,
      ∃ m, row.incidents_count = some m ∧ 0 ≤ m) ∧
    (∀ row ∈ (insert_reports_batch ⟨[], 1⟩ [⟨.HIGH, 1, some 3, some 4⟩]).db.rows,
      ∃ m, row.incidents_count = some m ∧ 0 ≤ m) :=
  c9_nonneg_incidents .LOW 5 none none ⟨[], 1⟩ ⟨.MEDIUM, 2, none, none⟩
    [⟨.HIGH, 1, some 3, some 4⟩] (by simp) (by decide) (by decide)

/-! ### Stability of the ORDER BY sort -/

theorem orderedInsert_filter_eq (x : Row) (l : List Row) (L : Option String)
    (hx : x.threat_level = L) :
    (List.orderedInsert rowKeyLe x l).filter (fun row => row.threat_level == L) =
      x :: l.filter (fun row => row.threat_level == L) := by
  induction l with
  | nil => simp [hx]
  | cons b t ih =>
      by_cases hr : rowKeyLe x b
      · rw [List.orderedInsert, if_pos hr]
        simp [List.filter_cons, hx]
      · rw [List.orderedInsert, if_neg hr]
        have hbL : ¬ b.threat_level = L := fun hb =>
          hr (by unfold rowKeyLe; rw [hb, hx]; exact sqliteKeyLe_refl _)
        simp [List.filter_cons, hbL, ih]

theorem orderedInsert_filter_ne (x : Row) (l : List Row) (L : Option String)
    (hx : ¬ x.threat_level = L) :
    (List.orderedInsert rowKeyLe x l).filter (fun row => row.threat_level == L) =
      l.filter (fun row => row.threat_level == L) := by
  induction l with
  | nil => simp [hx]
  | cons b t ih =>
      by_cases hr : rowKeyLe x b
      · rw [List.orderedInsert, if_pos hr]
        simp [List.filter_cons, hx]
      · rw [List.orderedInsert, if_neg hr]
        simp [List.filter_cons, ih]

theorem insertionSort_filter_level (l : List Row) (L : Option String) :
    (List.insertionSort rowKeyLe l).filter (fun row => row.threat_level == L) =
      l.filter (fun row => row.threat_level == L) := by
  induction l with
  | nil => rfl
  | cons x t ih =>
      simp only [List.insertionSort]
      by_cases hx : x.threat_level = L
      · rw [orderedInsert_filter_eq x _ L hx, ih]
        simp [List.filter_cons, hx]
      · rw [orderedInsert_filter_ne x _ L hx, ih]
        simp [List.filter_cons, hx]

theorem filter_level_eq_nil (t : List Row) (x : Row) (L : Option String)
    (hhead : ∀ y ∈ t, rowKeyLe x y)
    (hlt : sqliteKeyLe (threat_level_rank x.threat_level) (threat_level_rank L) = false) :
    t.filter (fun row => row.threat_level == L) = [] := by
  rw [List.filter_eq_nil_iff]
  intro y hy
  simp only [beq_iff_eq]
  intro hyL
  have hk := hhead y hy
  unfold rowKeyLe at hk
  rw [hyL] at hk
  rw [hlt] at hk
  cases hk

theorem sorted_blocks (l : List Row) (hs : List.Sorted rowKeyLe l)
    (hl : ∀ row ∈ l, row.threat_level ∈ enum_level_values) :
    l = l.filter (fun row => row.threat_level == some "CRITICAL") ++
        l.filter (fun row => row.threat_level == some "HIGH") ++
        l.filter (fun row => row.threat_level == some "MEDIUM") ++
        l.filter (fun row => row.threat_level == some "LOW") := by
  induction l with
  | nil => rfl
  | cons x t ih =>
      rw [List.sorted_cons] at hs
      obtain ⟨hhead, hst⟩ := hs
      have IH := ih hst (fun y hy => hl y (List.mem_cons_of_mem x hy))
      have hx := hl x (List.mem_cons_self x t)
      simp only [enum_level_values, ThreatLevel.all, ThreatLevel.value, List.map_cons,
        List.map_nil, List.mem_cons, List.not_mem_nil, or_false] at hx
      rcases hx with hx | hx | hx | hx
      · -- x is LOW: everything in t is LOW as well
        have hc := filter_level_eq_nil t x (some "CRITICAL") hhead (by rw [hx]; rfl)
        have hh := filter_level_eq_nil t x (some "HIGH") hhead (by rw [hx]; rfl)
        have hm := filter_level_eq_nil t x (some "MEDIUM") hhead (by rw [hx]; rfl)
        conv_lhs => rw [IH]
        simp [List.filter_cons, hx, hc, hh, hm]
      · -- x is MEDIUM
        have hc := filter_level_eq_nil t x (some "CRITICAL") hhead (by rw [hx]; rfl)
        have hh := filter_level_eq_nil t x (some "HIGH") hhead (by rw [hx]; rfl)
        conv_lhs => rw [IH]
        simp [List.filter_cons, hx, hc, hh]
      · -- x is HIGH
        have hc := filter_level_eq_nil t x (some "CRITICAL") hhead (by rw [hx]; rfl)
        conv_lhs => rw [IH]
        simp [List.filter_cons, hx, hc]
      · -- x is CRITICAL
        conv_lhs => rw [IH]
        simp [List.filter_cons, hx]

/-- C8: `get_all_reports` returns exactly the persisted rows (a
permutation of the table), laid out as the CRITICAL rows, then the HIGH
rows, then the MEDIUM rows, then the LOW rows, each block in insertion
(rowid) order — i.e. sorted by severity rank with ties broken by insertion
order. -/
theorem c8_get_all_reports_order (db : DB)
    (h : ∀ row ∈ db.rows, row.threat_level ∈ enum_level_values) :
    (get_all_reports db).Perm db.rows ∧
    get_all_reports db =
      db.rows.filter (fun row => row.threat_level == some "CRITICAL") ++
      db.rows.filter (fun row => row.threat_level == some "HIGH") ++
      db.rows.filter (fun row => row.threat_level == some "MEDIUM") ++
      db.rows.filter (fun row => row.threat_level == some "LOW") := by
  have hperm := List.perm_insertionSort rowKeyLe db.rows
  refine ⟨hperm, ?_⟩
  have hsorted := List.sorted_insertionSort rowKeyLe db.rows
  have hmemb : ∀ row ∈ List.insertionSort rowKeyLe db.rows,
      row.threat_level ∈ enum_level_values :=
    fun row hr => h row (hperm.subset hr)
  have hblocks := sorted_blocks _ hsorted hmemb
  unfold get_all_reports
  rw [insertionSort_filter_level, insertionSort_filter_level,
    insertionSort_filter_level, insertionSort_filter_level] at hblocks
  exact hblocks

/-- Witness for C8 on a table holding two CRITICAL rows (inserted first
and last), one HIGH row and one LOW row. -/
theorem c8_get_all_reports_order_witness :
    (∀ row ∈ ([⟨1, some "CRITICAL", some 1, none, none⟩,
               ⟨2, some "LOW", some 2, none, none⟩,
               ⟨3, some "HIGH", some 3, none, none⟩,
               ⟨4, some "CRITICAL", some 4, none, none⟩] : List Row),
      row.threat_level ∈ enum_level_values) ∧
    ((get_all_reports ⟨[⟨1, some "CRITICAL", some 1, none, none⟩,
               ⟨2, some "LOW", some 2, none, none⟩,
               ⟨3, some "HIGH", some 3, none, none⟩,
               ⟨4, some "CRITICAL", some 4, none, none⟩], 5⟩).Perm
        [⟨1, some "CRITICAL", some 1, none, none⟩,
         ⟨2, some "LOW", some 2, none, none⟩,
         ⟨3, some "HIGH", some 3, none, none⟩,
         ⟨4, some "CRITICAL", some 4, none, none⟩] ∧
     get_all_reports ⟨[⟨1, some "CRITICAL", some 1, none, none⟩,
               ⟨2, some "LOW", some 2, none, none⟩,
               ⟨3, some "HIGH", some 3, none, none⟩,
               ⟨4, some "CRITICAL", some 4, none, none⟩], 5⟩ =
       ([⟨1, some "CRITICAL", some 1, none, none⟩,
         ⟨2, some "LOW", some 2, none, none⟩,
         ⟨3, some "HIGH", some 3, none, none⟩,
         ⟨4, some "CRITICAL", some 4, none, none⟩] : List Row).filter
           (fun row => row.threat_level == some "CRITICAL") ++
       ([⟨1, some "CRITICAL", some 1, none, none⟩,
         ⟨2, some "LOW", some 2, none, none⟩,
         ⟨3, some "HIGH", some 3, none, none⟩,
         ⟨4, some "CRITICAL", some 4, none, none⟩] : List Row).filter
           (fun row => row.threat_level == some "HIGH") ++
       ([⟨1, some "CRITICAL", some 1, none, none⟩,
         ⟨2, some "LOW", some 2, none, none⟩,
         ⟨3, some "HIGH", some 3, none, none⟩,
         ⟨4, some "CRITICAL", some 4, none, none⟩] : List Row).filter
           (fun row => row.threat_level == some "MEDIUM") ++
       ([⟨1, some "CRITICAL", some 1, none, none⟩,
         ⟨2, some "LOW", some 2, none, none⟩,
         ⟨3, some "HIGH", some 3, none, none⟩,
         ⟨4, some "CRITICAL", some 4, none, none⟩] : List Row).filter
           (fun row => row.threat_level == some "LOW")) :=
  ⟨by decide,
   c8_get_all_reports_order ⟨[⟨1, some "CRITICAL", some 1, none, none⟩,
     ⟨2, some "LOW", some 2, none, none⟩,
     ⟨3, some "HIGH", some 3, none, none⟩,
     ⟨4, some "CRITICAL", some 4, none, none⟩], 5⟩ (by decide)⟩

/-- C3: over rows whose levels are enum values (as every
repository-persisted row's are), verification is complete exactly when the
set of levels present equals the full enumeration, and the missing set is
exactly the enumeration minus the present levels. -/
theorem c3_verify_completeness (reports : List Row)
    (h : ∀ row ∈ reports, row.threat_level ∈ enum_level_values) :
    ((verify_threat_levels reports).1 = true ↔
      (reports.map (fun report => report.threat_level)).toFinset = expected_levels) ∧
    (verify_threat_levels reports).2 =
      expected_levels \ (reports.map (fun report => report.threat_level)).toFinset := by
  have hsub : (reports.map (fun report => report.threat_level)).toFinset ⊆
      expected_levels := by
    intro x hx
    rw [List.mem_toFinset] at hx
    obtain ⟨row, hrow, rfl⟩ := List.mem_map.mp hx
    have hmem := h row hrow
    unfold enum_level_values at hmem
    unfold expected_levels
    exact List.mem_toFinset.mpr hmem
  refine ⟨?_, rfl⟩
  unfold verify_threat_levels
  simp only [beq_iff_eq, Finset.card_eq_zero, Finset.sdiff_eq_empty_iff_subset]
  constructor
  · intro hexp
    exact Finset.Subset.antisymm hsub hexp
  · intro heq
    rw [heq]

/-- Witness for C3: the HIGH-and-LOW-only store from the spec example is
judged incomplete with missing = {MEDIUM, CRITICAL}. -/
theorem c3_verify_completeness_witness :
    ((verify_threat_levels [⟨1, some "HIGH", some 1, none, none⟩,
        ⟨2, some "LOW", some 2, none, none⟩]).1 = true ↔
      (([⟨1, some "HIGH", some 1, none, none⟩,
         ⟨2, some "LOW", some 2, none, none⟩] : List Row).map
          (fun report => report.threat_level)).toFinset = expected_levels) ∧
    (verify_threat_levels [⟨1, some "HIGH", some 1, none, none⟩,
        ⟨2, some "LOW", some 2, none, none⟩]).2 =
      expected_levels \ (([⟨1, some "HIGH", some 1, none, none⟩,
         ⟨2, some "LOW", some 2, none, none⟩] : List Row).map
          (fun report => report.threat_level)).toFinset :=
  c3_verify_completeness [⟨1, some "HIGH", some 1, none, none⟩,
    ⟨2, some "LOW", some 2, none, none⟩] (by decide)

/-- C10: on an empty table the verification reports incomplete, with every
one of the four threat levels missing. -/
theorem c10_verify_empty :
    verify_threat_levels [] = (false, expected_levels) ∧
    expected_levels = {some "LOW", some "MEDIUM", some "HIGH", some "CRITICAL"} := by
  decide

end Etl
